import Mathlib

/-
Shallow embedding of the context7-mcp server core (src/context7/core.py,
src/context7/api.py, src/context7/schemas.py, src/context7/exceptions.py).

Modelling conventions:
- Python `str | None` optional parameters become `Option String`; Python
  truthiness of such a value (`if client_ip:`) is `pyTruthyStrOpt`.
- Python dicts used as HTTP header maps become insertion-ordered association
  lists (`List (String × String)`) with Python-dict update semantics
  (`pyDictSet` replaces the value in place, otherwise appends).
- Raised exceptions become `Except ApiError`; the constructors mirror the
  exception classes of src/context7/exceptions.py, FastAPI's HTTPException,
  and the uncaught Python errors (ValueError from key handling is the spec's
  EncryptionConfigError; AttributeError from a missing pydantic field).
- The upstream HTTP service and the per-call randomness (the AES IV) and the
  AES block cipher core are environment parameters (`Env`); the client code
  around them is translated from the source.
-/

namespace Context7

/-- Failure modes of the embedded code. `encryptionConfig` stands for the
ValueError raised by `bytes.fromhex` / `algorithms.AES` (the spec's
EncryptionConfigError); `libraryNotFound` / `docNotFound` are
LibraryNotFoundException / DocumentationNotFoundException (status, message);
`httpException` is a raw fastapi.HTTPException (status, detail);
`attributeError` is a Python AttributeError (object type, attribute name). -/
inductive ApiError where
  | encryptionConfig (msg : String)
  | libraryNotFound (status : Nat) (message : String)
  | docNotFound (status : Nat) (message : String)
  | httpException (status : Nat) (detail : String)
  | attributeError (objType : String) (attrName : String)
deriving Repr, DecidableEq

/-- Python truthiness of a `str | None` value: `None` and `""` are falsy. -/
def pyTruthyStrOpt : Option String → Bool
  | none => false
  | some s => !(s == "")

/-- Python-dict lookup on an insertion-ordered association list. -/
def pyDictGet : List (String × String) → String → Option String
  | [], _ => none
  | p :: ps, k => if p.1 = k then some p.2 else pyDictGet ps k

/-- Python-dict update `d[k] = v`: replaces the value of an existing key in
place, otherwise appends the new pair at the end. -/
def pyDictSet : List (String × String) → String → String → List (String × String)
  | [], k, v => [(k, v)]
  | p :: ps, k, v => if p.1 = k then (k, v) :: ps else p :: pyDictSet ps k v

/-- Helper for `pyStartsWith`: does the first list start with the second? -/
def charsStartWith : List Char → List Char → Bool
  | _, [] => true
  | [], _ :: _ => false
  | c :: cs, d :: ds => c == d && charsStartWith cs ds

/-- Python `str.startswith`, as an executable character-list test. -/
def pyStartsWith (s pre : String) : Bool :=
  charsStartWith s.toList pre.toList

/-- Value of a single hex digit, or `none` for any other character. -/
def hexDigitVal (c : Char) : Option Nat :=
  if '0' ≤ c ∧ c ≤ '9' then some (c.toNat - '0'.toNat)
  else if 'a' ≤ c ∧ c ≤ 'f' then some (c.toNat - 'a'.toNat + 10)
  else if 'A' ≤ c ∧ c ≤ 'F' then some (c.toNat - 'A'.toNat + 10)
  else none

/-- ASCII whitespace as tested by CPython's `Py_ISSPACE`: space, tab,
newline, vertical tab, form feed, carriage return. -/
def isPySpace (c : Char) : Bool :=
  c == ' ' || c == '\t' || c == '\n' || c == '\x0b' || c == '\x0c' || c == '\r'

/-- The decoding loop of CPython's `bytes.fromhex` (`_PyBytes_FromHex`):
runs of ASCII whitespace are skipped between byte pairs only; then the next
two characters must both be hex digits, with no whitespace permitted between
the two digits of a pair, and a trailing odd digit is an error. -/
def fromHexLoop : List Char → Option (List Nat)
  | [] => some []
  | c :: cs =>
    if isPySpace c then fromHexLoop cs
    else
      match cs with
      | [] => none
      | d :: rest =>
        match hexDigitVal c, hexDigitVal d with
        | some hi, some lo =>
          match fromHexLoop rest with
          | some l => some ((16 * hi + lo) :: l)
          | none => none
        | _, _ => none

/-- Embedding of Python `bytes.fromhex`. Returns the byte values, or `none`
where Python raises ValueError. -/
def bytesFromHex (s : String) : Option (List Nat) :=
  fromHexLoop s.toList

/-- Lowercase hex rendering of one nibble. -/
def hexChar (n : Nat) : Char :=
  if n < 10 then Char.ofNat (48 + n) else Char.ofNat (87 + n)

/-- Embedding of Python `bytes.hex()`: two lowercase hex digits per byte. -/
def hexOfBytes (bs : List Nat) : String :=
  String.mk (bs.foldr (fun b acc => hexChar (b / 16 % 16) :: hexChar (b % 16) :: acc) [])

/-- PKCS7 padding for a 128-bit (16-byte) block size, as applied by
`padding.PKCS7(128)` in core.py. -/
def pkcs7pad (data : List Nat) : List Nat :=
  let p := 16 - data.length % 16
  data ++ List.replicate p p

/-- UTF-8 bytes of a string, as Python `str.encode()`. -/
def utf8Bytes (s : String) : List Nat :=
  s.toUTF8.toList.map UInt8.toNat

/-- The configuration fields of src/context7/settings.py consumed by the
embedded code (`api_key` after `get_secret_value()`). -/
structure Settings where
  client_ip_encryption_key : String
  context7_api_base_url : String
  default_tokens : Int
  minimum_tokens : Int
  api_key : String
deriving Repr, DecidableEq

/-- Decoded JSON object of one catalog search hit, with `Option` for keys the
upstream may omit (Python `dict.get`). -/
structure SearchHit where
  title : Option String
  id : Option String
  description : Option String
  totalSnippets : Option Int
  trustScore : Option Int
  versions : Option (List String)
deriving Repr, DecidableEq

/-- Decoded JSON body of a search response: the `results` key (absent or a
list) and the `error` key. -/
structure SearchResponse where
  results : Option (List SearchHit)
  error : Option String
deriving Repr, DecidableEq

/-- Outbound GET issued by `search_libraries`: url, the `query` parameter and
the headers. -/
structure SearchHttpRequest where
  url : String
  query : String
  headers : List (String × String)
deriving Repr, DecidableEq

/-- Upstream answer to a search call; `body` is the decoded JSON (decoding
itself is out of scope, the upstream is modelled as already decoded). -/
structure SearchHttpResponse where
  status : Nat
  body : SearchResponse
deriving Repr, DecidableEq

/-- Outbound GET issued by `fetch_library_docs`: url, the three query
parameters (`tokens` already rendered to a string, `topic`, `type`) and the
headers. -/
structure FetchHttpRequest where
  url : String
  tokens : String
  topic : String
  typ : String
  headers : List (String × String)
deriving Repr, DecidableEq

/-- Upstream answer to a docs fetch: status code and plain text body. -/
structure FetchHttpResponse where
  status : Nat
  text : String
deriving Repr, DecidableEq

/-- Environment of the embedded code: the AES-CBC block-cipher core
(key, iv, padded plaintext ↦ ciphertext bytes), the 16 random IV bytes drawn
by `secrets.token_bytes(16)`, the upstream catalog service for the two
endpoints, and the loaded settings. -/
structure Env where
  enc : List Nat → List Nat → List Nat → List Nat
  iv : List Nat
  searchHttp : SearchHttpRequest → SearchHttpResponse
  fetchHttp : FetchHttpRequest → FetchHttpResponse
  settings : Settings

/-- Key strings accepted by `bytes.fromhex` followed by `algorithms.AES`:
valid hex decoding to 16, 24 or 32 bytes. -/
def validAesKeyHex (s : String) : Bool :=
  match bytesFromHex s with
  | none => false
  | some key => key.length == 16 || key.length == 24 || key.length == 32

/-- Embedding of `encrypt_client_ip` (core.py lines 23-41): decode the
configured hex key (ValueError on bad hex), build the AES cipher (ValueError
on a key length other than 16/24/32 bytes), PKCS7-pad the UTF-8 bytes of the
ip, encrypt, and return `iv.hex() + ":" + ct.hex()`. -/
def encrypt_client_ip (env : Env) (ip : String) : Except ApiError String :=
  match bytesFromHex env.settings.client_ip_encryption_key with
  | none => .error (.encryptionConfig "non-hexadecimal number found in fromhex() arg")
  | some key =>
    if key.length = 16 ∨ key.length = 24 ∨ key.length = 32 then
      let padded := pkcs7pad (utf8Bytes ip)
      let ct := env.enc key env.iv padded
      .ok (hexOfBytes env.iv ++ ":" ++ hexOfBytes ct)
    else .error (.encryptionConfig "Invalid key size for AES")

/-- Embedding of `generate_headers` (core.py lines 44-62):
`headers = extra.copy() if extra else {}`, then the encrypted-identity header
when `client_ip` is truthy, then the bearer header when `api_key` is truthy. -/
def generate_headers (env : Env) (client_ip api_key : Option String)
    (extra : Option (List (String × String))) : Except ApiError (List (String × String)) :=
  let headers := extra.getD []
  match (if pyTruthyStrOpt client_ip then
           (encrypt_client_ip env (client_ip.getD "")).map
             (fun e => pyDictSet headers "mcp-client-ip" e)
         else .ok headers) with
  | .error e => .error e
  | .ok headers =>
    .ok (if pyTruthyStrOpt api_key then
           pyDictSet headers "Authorization" ("Bearer " ++ api_key.getD "")
         else headers)

/-- Embedding of `search_libraries` (core.py lines 65-87): GET
`{base}/v1/search` with the `query` parameter; on status 200 the decoded JSON
is returned as-is, on any other status the constructed object
`{"error": str(status), "results": []}` is returned (no exception raised). -/
def search_libraries (env : Env) (query : String) (client_ip api_key : Option String) :
    Except ApiError SearchResponse :=
  let url := env.settings.context7_api_base_url ++ "/v1/search"
  match generate_headers env client_ip api_key none with
  | .error e => .error e
  | .ok h =>
    let r := env.searchHttp ⟨url, query, h⟩
    .ok (if r.status = 200 then r.body else ⟨some [], some (toString r.status)⟩)

/-- The outbound request constructed by `fetch_library_docs` (core.py lines
109-124) before the call is issued: one leading "/" stripped from the library
id, url `{base}/v1/{library_id}`, parameters
`tokens = str(max(tokens, settings.minimum_tokens))`, `topic`, `type = "txt"`,
and headers from `generate_headers` with the fixed
`X-Context7-Source: mcp-server` extra header. -/
def buildFetchRequest (env : Env) (library_id : String) (tokens : Int) (topic : String)
    (client_ip api_key : Option String) : Except ApiError FetchHttpRequest :=
  let lib := if pyStartsWith library_id "/" then library_id.drop 1 else library_id
  let url := env.settings.context7_api_base_url ++ "/v1/" ++ lib
  match generate_headers env client_ip api_key (some [("X-Context7-Source", "mcp-server")]) with
  | .error e => .error e
  | .ok h => .ok ⟨url, toString (max tokens env.settings.minimum_tokens), topic, "txt", h⟩

/-- Embedding of `fetch_library_docs` (core.py lines 90-132): issue the
request built by `buildFetchRequest`; on status 200 return the body text,
except that the two sentinel bodies map to `none`; on any other status return
`none`. -/
def fetch_library_docs (env : Env) (library_id : String) (tokens : Int) (topic : String)
    (client_ip api_key : Option String) : Except ApiError (Option String) :=
  match buildFetchRequest env library_id tokens topic client_ip api_key with
  | .error e => .error e
  | .ok req =>
    let r := env.fetchHttp req
    .ok (if r.status = 200 then
           (if r.text = "No content available" ∨ r.text = "No context data available"
            then none else some r.text)
         else none)

/-- One block of `format_search_results` (core.py lines 145-158): the three
always-present lines, then snippet count only when `totalSnippets` (default
-1) is positive, trust score only when truthy (present and nonzero), versions
only when truthy (present and non-empty). -/
def formatHit (r : SearchHit) : String :=
  let out := ["- Title: " ++ r.title.getD "",
              "- ID: " ++ r.id.getD "",
              "- Description: " ++ r.description.getD ""]
  let out := if r.totalSnippets.getD (-1) > 0
    then out ++ ["- Code Snippets: " ++ toString (r.totalSnippets.getD (-1))] else out
  let out := if (match r.trustScore with | none => false | some v => !(v == 0))
    then out ++ ["- Trust Score: " ++ toString (r.trustScore.getD 0)] else out
  let out := if (match r.versions with | none => false | some vs => !vs.isEmpty)
    then out ++ ["- Versions: " ++ String.intercalate ", " (r.versions.getD [])] else out
  String.intercalate "\n" out

/-- Embedding of `format_search_results` (core.py lines 135-159): one block
per hit of `resp.get("results", [])`, joined by the fixed separator line. -/
def format_search_results (resp : SearchResponse) : String :=
  String.intercalate "\n----------\n" ((resp.results.getD []).map formatHit)

/-- Python truthiness of `resp.get("results")`: falsy when the key is absent
or the list is empty. -/
def pyTruthyResults : Option (List SearchHit) → Bool
  | none => false
  | some l => !l.isEmpty

/-- Python `repr` of a list of strings, as interpolated by the f-string
`f"... for names {request.library_names}"` (quote characters inside the
names themselves would additionally be escaped by Python; the names used
here contain none). -/
def pyReprStrList (l : List String) : String :=
  "[" ++ String.intercalate ", " (l.map (fun s => "\x27" ++ s ++ "\x27")) ++ "]"

/-- First error encountered when traversing the task results in completion
order: the task indices in `order` are inspected in turn. Models which
exception `asyncio.gather` propagates when several tasks raise. -/
def firstErrorIn {E α : Type} : List Nat → List (Except E α) → Option E
  | [], _ => none
  | i :: rest, tasks =>
    match tasks.get? i with
    | some (.error e) => some e
    | _ => firstErrorIn rest tasks

/-- Collect all task results in input order, stopping at the first error in
input order. -/
def collectAll {E α : Type} : List (Except E α) → Except E (List α)
  | [] => .ok []
  | t :: ts =>
    match t with
    | .error e => .error e
    | .ok a =>
      match collectAll ts with
      | .error e => .error e
      | .ok l => .ok (a :: l)

/-- Model of `asyncio.gather(*tasks)` over pure task results: if some task
raised, the exception of the first raising task in completion order (`order`,
a permutation of the indices) propagates; otherwise the list of results in
input order is returned. When `order` misses a failing index the first
failing task in input order is used. -/
def pyGather {E α : Type} (order : List Nat) (tasks : List (Except E α)) :
    Except E (List α) :=
  match firstErrorIn order tasks with
  | some e => .error e
  | none => collectAll tasks

/-- Request model of `GetLibraryDocsRequest` (schemas.py lines 44-62). -/
structure GetLibraryDocsRequest where
  library_id : String
  tokens : Int
  topic : String
deriving Repr, DecidableEq

/-- Request model of `ResolveMultipleLibraryIDsRequest` (schemas.py lines
30-35). -/
structure ResolveMultipleLibraryIDsRequest where
  library_names : List String
deriving Repr, DecidableEq

/-- Request model of `GetMultipleLibraryDocsRequest` (schemas.py lines
71-86). NOTE: the first field is declared `library_id` (singular) in
schemas.py, although its description and examples speak of `library_ids`;
the handler in api.py reads `request.library_ids` (plural). -/
structure GetMultipleLibraryDocsRequest where
  library_id : List String
  tokens : List Int
  topics : List String
deriving Repr, DecidableEq

/-- Python attribute access `request.library_ids` on a
`GetMultipleLibraryDocsRequest` (api.py lines 191, 209, 211): the pydantic
model declares no field of that name (schemas.py declares `library_id`), so
the access raises AttributeError. -/
def pyAttrLibraryIds (_ : GetMultipleLibraryDocsRequest) :
    Except ApiError (List String) :=
  .error (.attributeError "GetMultipleLibraryDocsRequest" "library_ids")

/-- Embedding of the `get_library_docs` handler (api.py lines 129-144):
fetch with `client_ip=None` and the configured api key; raise
DocumentationNotFoundException when the result is falsy (`None` or `""`). -/
def get_library_docs (env : Env) (request : GetLibraryDocsRequest) :
    Except ApiError String :=
  match fetch_library_docs env request.library_id request.tokens request.topic
      none (some env.settings.api_key) with
  | .error e => .error e
  | .ok docs =>
    if pyTruthyStrOpt docs then .ok (docs.getD "")
    else .error (.docNotFound 404 "Documentation not found.")

/-- The inner `_search` coroutine of `resolve_multiple_library_ids` (api.py
lines 163-169): search one name; when `resp.get("results")` is falsy raise
LibraryNotFoundException whose message interpolates the full
`request.library_names` list; otherwise format the results. -/
def searchTask (env : Env) (library_names : List String) (name : String) :
    Except ApiError String :=
  match search_libraries env name none (some env.settings.api_key) with
  | .error e => .error e
  | .ok resp =>
    if pyTruthyResults resp.results then .ok (format_search_results resp)
    else .error (.libraryNotFound 404
      ("No matching library ids found for names " ++ pyReprStrList library_names))

/-- Embedding of the `resolve_multiple_library_ids` handler (api.py lines
157-172): one `_search` task per name, gathered; `order` is the completion
order of the concurrent tasks. -/
def resolve_multiple_library_ids (env : Env) (order : List Nat)
    (request : ResolveMultipleLibraryIDsRequest) : Except ApiError (List String) :=
  pyGather order (request.library_names.map (searchTask env request.library_names))

/-- The inner `_fetch` coroutine of `get_multiple_library_docs` (api.py lines
197-205): fetch one id; a falsy result (`None` or `""`) is replaced by the
placeholder string naming the original (unnormalized) id and the topic. -/
def fetchTask (env : Env) (lib_id : String) (t : Int) (top : String) :
    Except ApiError String :=
  match fetch_library_docs env lib_id t top none (some env.settings.api_key) with
  | .error e => .error e
  | .ok docs =>
    .ok (if pyTruthyStrOpt docs then docs.getD ""
         else "Documentation not found for " ++ lib_id ++ " with topic \x27" ++ top ++ "\x27.")

/-- The body of the `get_multiple_library_docs` handler (api.py lines
191-213) applied to the three lists the handler attempts to read from the
request: the equal-length validation raising HTTPException 400, then one
`_fetch` task per index, gathered. -/
def get_multiple_library_docs_given (env : Env) (order : List Nat)
    (library_ids : List String) (tokens : List Int) (topics : List String) :
    Except ApiError (List String) :=
  if ¬(library_ids.length = tokens.length ∧ tokens.length = topics.length) then
    .error (.httpException 400 "Lengths of library_ids, tokens, and topics must match.")
  else
    pyGather order ((List.range library_ids.length).map
      (fun i => fetchTask env (library_ids.getD i "") (tokens.getD i 0) (topics.getD i "")))

/-- Embedding of the `get_multiple_library_docs` handler (api.py lines
185-213): the first evaluated expression is `len(request.library_ids)`, an
attribute access that raises AttributeError because the schema field is named
`library_id`; only if that access succeeded would the validated body run. -/
def get_multiple_library_docs (env : Env) (order : List Nat)
    (request : GetMultipleLibraryDocsRequest) : Except ApiError (List String) :=
  match pyAttrLibraryIds request with
  | .error e => .error e
  | .ok library_ids =>
    get_multiple_library_docs_given env order library_ids request.tokens request.topics

/-- A concrete settings value (valid 16-byte AES key) used by witnesses. -/
def settings0 : Settings :=
  { client_ip_encryption_key := "000102030405060708090a0b0c0d0e0f"
    context7_api_base_url := "https://context7.com/api"
    default_tokens := 10000
    minimum_tokens := 1000
    api_key := "k" }

/-- A concrete environment whose upstream always answers 200 with body
"DOCS" for fetches and an empty result list for searches. -/
def env0 : Env :=
  { enc := fun _ _ d => d
    iv := List.replicate 16 0
    searchHttp := fun _ => ⟨200, ⟨some [], none⟩⟩
    fetchHttp := fun _ => ⟨200, "DOCS"⟩
    settings := settings0 }

/-- A concrete search hit used by witnesses. -/
def hitA : SearchHit := ⟨some "T", some "I", some "D", none, none, none⟩

/-- A concrete environment whose search endpoint answers with one hit for
every query except "bad", which yields an empty result list. -/
def envBad : Env :=
  { enc := fun _ _ d => d
    iv := List.replicate 16 0
    searchHttp := fun r => if r.query = "bad" then ⟨200, ⟨some [], none⟩⟩
                           else ⟨200, ⟨some [hitA], none⟩⟩
    fetchHttp := fun _ => ⟨200, "DOCS"⟩
    settings := settings0 }

/-- A concrete environment whose fetch endpoint answers 200 with an empty
body for every request. -/
def envEmpty : Env :=
  { enc := fun _ _ d => d
    iv := List.replicate 16 0
    searchHttp := fun _ => ⟨200, ⟨some [], none⟩⟩
    fetchHttp := fun _ => ⟨200, ""⟩
    settings := settings0 }

/-- Tests whether a call result is the ValueError raised by the key handling
of `encrypt_client_ip` (the spec's EncryptionConfigError). -/
def isEncryptionConfigError {α : Type} : Except ApiError α → Bool
  | .error (.encryptionConfig _) => true
  | _ => false

/-- The search response a call with `client_ip=None` and the configured api
key observes (such a call never raises, so this projection is total). -/
def searchRespOf (env : Env) (query : String) : SearchResponse :=
  match search_libraries env query none (some env.settings.api_key) with
  | .ok r => r
  | .error _ => ⟨none, none⟩

/-- The documentation text (or absent marker) a fetch with `client_ip=None`
and the configured api key observes. -/
def fetchDocsOf (env : Env) (lib : String) (t : Int) (top : String) : Option String :=
  match fetch_library_docs env lib t top none (some env.settings.api_key) with
  | .ok d => d
  | .error _ => none

/-- The string the `_fetch` coroutine produces for one batch index: the
fetched text when truthy, else the placeholder naming the original id and
topic. -/
def fetchTaskValue (env : Env) (lib : String) (t : Int) (top : String) : String :=
  if pyTruthyStrOpt (fetchDocsOf env lib t top) then (fetchDocsOf env lib t top).getD ""
  else "Documentation not found for " ++ lib ++ " with topic \x27" ++ top ++ "\x27."

/-- env0 with a non-hex encryption key configured. -/
def envZZ : Env :=
  { env0 with settings := { settings0 with client_ip_encryption_key := "zz" } }

/-- The outbound request `fetch_library_docs` builds in `env0` for library
"/x", 5 tokens, topic "t". -/
def fetchReq0 : FetchHttpRequest :=
  ⟨"https://context7.com/api/v1/x", "1000", "t", "txt",
   [("X-Context7-Source", "mcp-server"), ("Authorization", "Bearer k")]⟩

/-- A concrete environment mirroring the spec's best-effort example: the
fetch endpoint answers real text except for library id "bad/id", which gets
the sentinel body. -/
def envMix : Env :=
  { enc := fun _ _ d => d
    iv := List.replicate 16 0
    searchHttp := fun _ => ⟨200, ⟨some [], none⟩⟩
    fetchHttp := fun r => if r.url = "https://context7.com/api/v1/bad/id"
                          then ⟨200, "No content available"⟩ else ⟨200, "DOCS"⟩
    settings := settings0 }

/-- A concrete environment whose search endpoint answers 503. -/
def envErr : Env :=
  { enc := fun _ _ d => d
    iv := List.replicate 16 0
    searchHttp := fun _ => ⟨503, ⟨some [hitA], none⟩⟩
    fetchHttp := fun _ => ⟨200, "DOCS"⟩
    settings := settings0 }

/-- The outbound request `fetch_library_docs` builds in `env0` for
"/tiangolo/fastapi" (and equally for "tiangolo/fastapi"), topic "r". -/
def fetchReqA : FetchHttpRequest :=
  ⟨"https://context7.com/api/v1/tiangolo/fastapi", "1000", "r", "txt",
   [("X-Context7-Source", "mcp-server"), ("Authorization", "Bearer k")]⟩

example : get_library_docs env0 ⟨"/x", 5, "t"⟩ = .ok "DOCS" := by rfl

example : get_library_docs envEmpty ⟨"/x", 5, "t"⟩ =
    .error (.docNotFound 404 "Documentation not found.") := by rfl

example : resolve_multiple_library_ids envBad [0, 1] ⟨["good", "bad"]⟩ =
    .error (.libraryNotFound 404
      ("No matching library ids found for names " ++ pyReprStrList ["good", "bad"])) := by rfl

example : resolve_multiple_library_ids envBad [0] ⟨["good"]⟩ =
    .ok ["- Title: T\n- ID: I\n- Description: D"] := by rfl

example : get_multiple_library_docs env0 [0, 1] ⟨["a", "b"], [1, 2, 3], ["t", "u", "v"]⟩ =
    .error (.attributeError "GetMultipleLibraryDocsRequest" "library_ids") := by rfl

example : get_multiple_library_docs_given envEmpty [0] ["/lib"] [5] ["top"] =
    .ok ["Documentation not found for /lib with topic \x27top\x27."] := by rfl

example : get_multiple_library_docs_given env0 [0, 1] ["a", "b"] [1, 2, 3] ["t", "u", "v"] =
    .error (.httpException 400 "Lengths of library_ids, tokens, and topics must match.") := by
  rfl

example : generate_headers env0 (some "") (some "k") (some [("Authorization", "old")]) =
    .ok [("Authorization", "Bearer k")] := by rfl

example : encrypt_client_ip { env0 with settings := { settings0 with client_ip_encryption_key := "zz" } } "1.2.3.4" =
    .error (.encryptionConfig "non-hexadecimal number found in fromhex() arg") := by rfl

example : bytesFromHex "000102030405060708090a0b0c0d0e0f" =
    some [0, 1, 2, 3, 4, 5, 6, 7, 8, 9, 10, 11, 12, 13, 14, 15] := by rfl

example : bytesFromHex "0 00102030405060708090a0b0c0d0e0f" = none := by rfl

example : bytesFromHex "00\t0102030405060708090a0b0c0d0e0f" =
    some [0, 1, 2, 3, 4, 5, 6, 7, 8, 9, 10, 11, 12, 13, 14, 15] := by rfl

example : validAesKeyHex "00\t0102030405060708090a0b0c0d0e0f" = true := by rfl

example : validAesKeyHex "0 00102030405060708090a0b0c0d0e0f" = false := by rfl

example : buildFetchRequest env0 "/tiangolo/fastapi" 5 "routing" none (some "k") =
    .ok ⟨"https://context7.com/api/v1/tiangolo/fastapi", "1000", "routing", "txt",
         [("X-Context7-Source", "mcp-server"), ("Authorization", "Bearer k")]⟩ := by rfl

/-! Helper lemmas about the Python-dict model. -/

theorem pyDictGet_set_self (d : List (String × String)) (k v : String) :
    pyDictGet (pyDictSet d k v) k = some v := by
  induction d with
  | nil => simp [pyDictSet, pyDictGet]
  | cons p ps ih =>
    by_cases h : p.1 = k
    · simp [pyDictSet, pyDictGet, h]
    · simp [pyDictSet, pyDictGet, h, ih]

theorem pyDictGet_set_other (d : List (String × String)) (k v k' : String) (h : k' ≠ k) :
    pyDictGet (pyDictSet d k v) k' = pyDictGet d k' := by
  induction d with
  | nil => simp [pyDictSet, pyDictGet, h, Ne.symm h]
  | cons p ps ih =>
    by_cases hp : p.1 = k
    · simp [pyDictSet, pyDictGet, hp, h, Ne.symm h]
    · by_cases hp' : p.1 = k'
      · simp [pyDictSet, pyDictGet, hp, hp', h]
      · simp [pyDictSet, pyDictGet, hp, hp', ih]

/-! Helper lemmas about the gather model. -/

theorem firstErrorIn_mem {E α : Type} (order : List Nat) (tasks : List (Except E α)) (e : E)
    (h : firstErrorIn order tasks = some e) : Except.error e ∈ tasks := by
  induction order with
  | nil => simp [firstErrorIn] at h
  | cons i rest ih =>
    rw [firstErrorIn] at h
    cases hg : tasks.get? i with
    | none => rw [hg] at h; exact ih h
    | some t =>
      cases t with
      | error e' =>
        rw [hg] at h
        simp at h
        subst h
        exact List.get?_mem hg
      | ok a => rw [hg] at h; exact ih h

theorem firstErrorIn_none_of_all_ok {E α : Type} (order : List Nat)
    (tasks : List (Except E α)) (h : ∀ t ∈ tasks, ∃ a, t = .ok a) :
    firstErrorIn order tasks = none := by
  induction order with
  | nil => rfl
  | cons i rest ih =>
    rw [firstErrorIn]
    cases hg : tasks.get? i with
    | none => exact ih
    | some t =>
      obtain ⟨a, rfl⟩ := h t (List.get?_mem hg)
      exact ih

theorem collectAll_error_uniform {E α : Type} (tasks : List (Except E α)) (e0 : E)
    (hU : ∀ t ∈ tasks, ∀ e, t = .error e → e = e0)
    (hE : ∃ t ∈ tasks, ∃ e, t = .error e) : collectAll tasks = .error e0 := by
  induction tasks with
  | nil => obtain ⟨t, ht, _⟩ := hE; simp at ht
  | cons t ts ih =>
    cases t with
    | error e =>
      have : e = e0 := hU _ (by simp) e rfl
      subst this
      rfl
    | ok a =>
      have hE' : ∃ t ∈ ts, ∃ e, t = .error e := by
        obtain ⟨t', ht', e', he'⟩ := hE
        rcases List.mem_cons.mp ht' with h1 | h2
        · subst h1; cases he'
        · exact ⟨t', h2, e', he'⟩
      have hU' : ∀ t ∈ ts, ∀ e, t = .error e → e = e0 :=
        fun t ht e he => hU t (List.mem_cons_of_mem _ ht) e he
      rw [collectAll, ih hU' hE']

theorem pyGather_error_uniform {E α : Type} (order : List Nat)
    (tasks : List (Except E α)) (e0 : E)
    (hU : ∀ t ∈ tasks, ∀ e, t = .error e → e = e0)
    (hE : ∃ t ∈ tasks, ∃ e, t = .error e) : pyGather order tasks = .error e0 := by
  rw [pyGather]
  cases hf : firstErrorIn order tasks with
  | none => exact collectAll_error_uniform tasks e0 hU hE
  | some e =>
    have : e = e0 := hU _ (firstErrorIn_mem order tasks e hf) e rfl
    rw [this]

theorem collectAll_map_ok {E α : Type} (vals : List α) :
    collectAll (E := E) (vals.map Except.ok) = .ok vals := by
  induction vals with
  | nil => rfl
  | cons v vs ih => rw [List.map_cons, collectAll, ih]

theorem firstErrorIn_map_ok {E α : Type} (order : List Nat) (vals : List α) :
    firstErrorIn (E := E) order (vals.map Except.ok) = none := by
  apply firstErrorIn_none_of_all_ok
  intro t ht
  obtain ⟨a, _, rfl⟩ := List.mem_map.mp ht
  exact ⟨a, rfl⟩

theorem pyGather_map_ok {E α : Type} (order : List Nat) (vals : List α) :
    pyGather (E := E) order (vals.map Except.ok) = .ok vals := by
  rw [pyGather, firstErrorIn_map_ok, collectAll_map_ok]

theorem pyGather_ok_elim {E α : Type} (order : List Nat) (tasks : List (Except E α))
    (l : List α) (h : pyGather order tasks = .ok l) : collectAll tasks = .ok l := by
  rw [pyGather] at h
  cases hf : firstErrorIn order tasks with
  | none => rw [hf] at h; exact h
  | some e => rw [hf] at h; cases h

theorem collectAll_ok_spec {E α : Type} :
    ∀ (tasks : List (Except E α)) (l : List α), collectAll tasks = .ok l →
      l.length = tasks.length ∧ ∀ i, tasks.get? i = (l.get? i).map Except.ok
  | [], l, h => by
    rw [collectAll] at h
    cases h
    exact ⟨rfl, fun i => rfl⟩
  | t :: ts, l, h => by
    cases t with
    | error e => rw [collectAll] at h; cases h
    | ok a =>
      cases hc : collectAll ts with
      | error e => rw [collectAll, hc] at h; cases h
      | ok tl =>
        rw [collectAll, hc] at h
        cases h
        obtain ⟨hlen, hget⟩ := collectAll_ok_spec ts tl hc
        refine ⟨by simp [hlen], fun i => ?_⟩
        cases i with
        | zero => rfl
        | succ n => simpa using hget n

/-! Reduction lemmas for the per-item coroutines (with `client_ip=None` the
header builder cannot raise, so both coroutines reduce definitionally). -/

theorem search_libraries_ip_none (env : Env) (q : String) :
    search_libraries env q none (some env.settings.api_key) = .ok (searchRespOf env q) := rfl

theorem fetch_library_docs_ip_none (env : Env) (lib : String) (t : Int) (top : String) :
    fetch_library_docs env lib t top none (some env.settings.api_key) =
      .ok (fetchDocsOf env lib t top) := rfl

theorem searchTask_eq (env : Env) (names : List String) (name : String) :
    searchTask env names name =
      if pyTruthyResults (searchRespOf env name).results
      then .ok (format_search_results (searchRespOf env name))
      else .error (.libraryNotFound 404
        ("No matching library ids found for names " ++ pyReprStrList names)) := rfl

theorem fetchTask_eq (env : Env) (lib : String) (t : Int) (top : String) :
    fetchTask env lib t top = .ok (fetchTaskValue env lib t top) := rfl

theorem searchTask_error_eq (env : Env) (names : List String) (name : String) (e : ApiError)
    (h : searchTask env names name = .error e) :
    e = .libraryNotFound 404
      ("No matching library ids found for names " ++ pyReprStrList names) := by
  rw [searchTask_eq] at h
  by_cases hb : pyTruthyResults (searchRespOf env name).results
  · rw [if_pos hb] at h; cases h
  · rw [if_neg hb] at h
    injection h with h2
    exact h2.symm

theorem searchTask_of_falsy (env : Env) (names : List String) (name : String)
    (h : pyTruthyResults (searchRespOf env name).results = false) :
    searchTask env names name = .error (.libraryNotFound 404
      ("No matching library ids found for names " ++ pyReprStrList names)) := by
  rw [searchTask_eq, h]
  simp

/-- C1: the claim says a length-mismatched batch fails with a pre-dispatch
validation failure and zero upstream calls. What the code does: every call to
the `get_multiple_library_docs` handler — mismatched or not, under every
environment and completion order, hence independent of the upstream, with
zero upstream calls — fails with AttributeError, because the handler reads
`request.library_ids` while the schema declares `library_id`. The validation
the claim describes lives in the handler body (api.py lines 191-195) and
would, were the field readable, reject a mismatched batch with HTTPException
400 before any task is dispatched — second conjunct, stated on the handler
body applied to the three lists. -/
theorem fetchMany_length_mismatch_prevalidation :
    (∀ (env : Env) (order : List Nat) (request : GetMultipleLibraryDocsRequest),
      get_multiple_library_docs env order request =
        .error (.attributeError "GetMultipleLibraryDocsRequest" "library_ids"))
    ∧ (∀ (env : Env) (order : List Nat) (ids : List String) (toks : List Int)
        (tops : List String),
        ¬(ids.length = toks.length ∧ toks.length = tops.length) →
        get_multiple_library_docs_given env order ids toks tops =
          .error (.httpException 400 "Lengths of library_ids, tokens, and topics must match.")) := by
  constructor
  · intro env order request
    rfl
  · intro env order ids toks tops h
    rw [get_multiple_library_docs_given, if_pos h]

/-- Witness for C1 at the spec's concrete mismatch (ids length 2, tokens
length 3). -/
theorem fetchMany_length_mismatch_prevalidation_witness :
    get_multiple_library_docs env0 [0] ⟨["a", "b"], [1, 2, 3], ["t", "u", "v"]⟩ =
      .error (.attributeError "GetMultipleLibraryDocsRequest" "library_ids")
    ∧ get_multiple_library_docs_given env0 [0, 1, 2] ["a", "b"] [1, 2, 3] ["t", "u", "v"] =
      .error (.httpException 400 "Lengths of library_ids, tokens, and topics must match.") :=
  ⟨fetchMany_length_mismatch_prevalidation.1 env0 [0] ⟨["a", "b"], [1, 2, 3], ["t", "u", "v"]⟩,
   fetchMany_length_mismatch_prevalidation.2 env0 [0, 1, 2] ["a", "b"] [1, 2, 3]
     ["t", "u", "v"] (by decide)⟩

/-- C2: whenever some member name of a `resolve_multiple_library_ids` batch
yields a falsy (empty or absent) search result set, the whole operation —
under every completion order of the concurrent searches — raises
LibraryNotFoundException whose message carries the full input name list
(rendered by the f-string as the Python repr of the list), and no incomplete
result list is returned (the result is the error, not an `.ok`). -/
theorem resolveMany_fail_fast (env : Env) (order : List Nat) (names : List String)
    (h : ∃ name ∈ names, pyTruthyResults (searchRespOf env name).results = false) :
    resolve_multiple_library_ids env order ⟨names⟩ =
      .error (.libraryNotFound 404
        ("No matching library ids found for names " ++ pyReprStrList names)) := by
  obtain ⟨name, hmem, hfalsy⟩ := h
  apply pyGather_error_uniform
  · intro t ht e hte
    obtain ⟨n, _, rfl⟩ := List.mem_map.mp ht
    exact (searchTask_error_eq env names n e hte).symm ▸ rfl
  · exact ⟨searchTask env names name, List.mem_map_of_mem _ hmem,
      _, searchTask_of_falsy env names name hfalsy⟩

/-- Witness for C2: in `envBad` the name "bad" yields an empty result set
while "good" resolves, and the whole batch fails with the full-list
message. -/
theorem resolveMany_fail_fast_witness :
    resolve_multiple_library_ids envBad [0, 1] ⟨["good", "bad"]⟩ =
      .error (.libraryNotFound 404
        ("No matching library ids found for names " ++ pyReprStrList ["good", "bad"])) :=
  resolveMany_fail_fast envBad [0, 1] ["good", "bad"] ⟨"bad", by decide, by rfl⟩

/-- C3: the claim describes the best-effort per-index placeholder behavior of
the batch fetch. The handler body applied to three equal-length lists (the
code of api.py lines 191-213) indeed returns, never raising, the list whose
element at index i is the fetched text for input i, with a falsy fetch
replaced — at that index only — by the placeholder built from the original
unnormalized id and topic (conjuncts 1 and 2). The handler itself, however,
never reaches that body: every call fails with AttributeError on
`request.library_ids` (conjunct 3, at the spec's example batch). -/
theorem fetchMany_best_effort_placeholder :
    (∀ (env : Env) (order : List Nat) (ids : List String) (toks : List Int)
      (tops : List String), ids.length = toks.length → toks.length = tops.length →
      get_multiple_library_docs_given env order ids toks tops =
        .ok ((List.range ids.length).map
          (fun i => fetchTaskValue env (ids.getD i "") (toks.getD i 0) (tops.getD i ""))))
    ∧ (∀ (env : Env) (lib : String) (t : Int) (top : String),
        fetchDocsOf env lib t top = none →
        fetchTaskValue env lib t top =
          "Documentation not found for " ++ lib ++ " with topic \x27" ++ top ++ "\x27.")
    ∧ get_multiple_library_docs envMix [0, 1]
        ⟨["/tiangolo/fastapi", "/bad/id"], [2500, 2500], ["routing", "x"]⟩ =
        .error (.attributeError "GetMultipleLibraryDocsRequest" "library_ids") := by
  refine ⟨?_, ?_, rfl⟩
  · intro env order ids toks tops h1 h2
    rw [get_multiple_library_docs_given, if_neg (by simp [h1, h2])]
    have hm := pyGather_map_ok (E := ApiError) order
      ((List.range ids.length).map
        (fun i => fetchTaskValue env (ids.getD i "") (toks.getD i 0) (tops.getD i "")))
    rw [List.map_map] at hm
    exact hm
  · intro env lib t top h
    rw [fetchTaskValue, h]
    rfl

/-- Witness for C3 at the spec's example: in `envMix` the first id fetches
real text and the second the sentinel, and the body yields the aligned list
with the placeholder at index 1 only. -/
theorem fetchMany_best_effort_placeholder_witness :
    get_multiple_library_docs_given envMix [0, 1] ["/tiangolo/fastapi", "/bad/id"]
        [2500, 2500] ["routing", "x"] =
      .ok ((List.range (["/tiangolo/fastapi", "/bad/id"] : List String).length).map
        (fun i => fetchTaskValue envMix ((["/tiangolo/fastapi", "/bad/id"] : List String).getD i "")
          (([2500, 2500] : List Int).getD i 0) ((["routing", "x"] : List String).getD i "")))
    ∧ fetchTaskValue envMix "/bad/id" 2500 "x" =
        "Documentation not found for /bad/id with topic \x27x\x27." :=
  ⟨fetchMany_best_effort_placeholder.1 envMix [0, 1] ["/tiangolo/fastapi", "/bad/id"]
      [2500, 2500] ["routing", "x"] rfl rfl,
   fetchMany_best_effort_placeholder.2.1 envMix "/bad/id" 2500 "x" (by rfl)⟩

/-- C4: for `resolve_multiple_library_ids`, an accepted (successfully
returned) batch yields a list of the input's length whose element at index i
is the value of the search task for input index i, for every completion
order, and the whole operation's result is completion-order independent
(conjuncts 1 and 2). For `get_multiple_library_docs` no batch is ever
accepted: every call fails with AttributeError on `request.library_ids`
before any task exists (conjunct 3, at the spec's ordering example). -/
theorem gather_order_alignment :
    (∀ (env : Env) (order : List Nat) (names : List String) (l : List String),
      resolve_multiple_library_ids env order ⟨names⟩ = .ok l →
      l.length = names.length ∧
        ∀ i, (names.get? i).map (searchTask env names) = (l.get? i).map Except.ok)
    ∧ (∀ (env : Env) (order order' : List Nat) (names : List String),
        resolve_multiple_library_ids env order ⟨names⟩ =
          resolve_multiple_library_ids env order' ⟨names⟩)
    ∧ (∀ (env : Env) (order : List Nat),
        get_multiple_library_docs env order ⟨["A", "B", "C"], [2500, 2500, 2500], ["a", "b", "c"]⟩ =
          .error (.attributeError "GetMultipleLibraryDocsRequest" "library_ids")) := by
  refine ⟨?_, ?_, fun env order => rfl⟩
  · intro env order names l h
    have hc := pyGather_ok_elim order (names.map (searchTask env names)) l h
    obtain ⟨hlen, hget⟩ := collectAll_ok_spec (names.map (searchTask env names)) l hc
    refine ⟨by simpa using hlen, fun i => ?_⟩
    have hi := hget i
    rw [List.get?_map] at hi
    exact hi
  · intro env order order' names
    have hU : ∀ t ∈ names.map (searchTask env names), ∀ e, t = .error e →
        e = .libraryNotFound 404
          ("No matching library ids found for names " ++ pyReprStrList names) := by
      intro t ht e hte
      obtain ⟨n, _, rfl⟩ := List.mem_map.mp ht
      exact searchTask_error_eq env names n e hte
    by_cases hE : ∃ t ∈ names.map (searchTask env names), ∃ e, t = .error e
    · show pyGather order _ = pyGather order' _
      rw [pyGather_error_uniform order _ _ hU hE, pyGather_error_uniform order' _ _ hU hE]
    · have hok : ∀ t ∈ names.map (searchTask env names), ∃ a, t = .ok a := by
        intro t ht
        cases t with
        | ok a => exact ⟨a, rfl⟩
        | error e => exact absurd ⟨_, ht, e, rfl⟩ hE
      show pyGather order _ = pyGather order' _
      rw [pyGather, pyGather, firstErrorIn_none_of_all_ok order _ hok,
        firstErrorIn_none_of_all_ok order' _ hok]

/-- Witness for C4: a one-element batch in `envBad` resolves to the formatted
block of its single hit, aligned at index 0. -/
theorem gather_order_alignment_witness :
    (["- Title: T\n- ID: I\n- Description: D"] : List String).length =
        (["good"] : List String).length
    ∧ ((["good"] : List String).get? 0).map (searchTask envBad ["good"]) =
        ((["- Title: T\n- ID: I\n- Description: D"] : List String).get? 0).map Except.ok :=
  ⟨(gather_order_alignment.1 envBad [0] ["good"]
      ["- Title: T\n- ID: I\n- Description: D"] (by rfl)).1,
   (gather_order_alignment.1 envBad [0] ["good"]
      ["- Title: T\n- ID: I\n- Description: D"] (by rfl)).2 0⟩

/-- Characterization of the request built by `fetch_library_docs`: url from
the once-stripped id, tokens parameter from the clamped budget. -/
theorem buildFetchRequest_spec (env : Env) (lib : String) (tokens : Int) (topic : String)
    (ip key : Option String) (req : FetchHttpRequest)
    (h : buildFetchRequest env lib tokens topic ip key = .ok req) :
    req.url = env.settings.context7_api_base_url ++ "/v1/" ++
      (if pyStartsWith lib "/" then lib.drop 1 else lib)
    ∧ req.tokens = toString (max tokens env.settings.minimum_tokens) := by
  rw [buildFetchRequest] at h
  cases hg : generate_headers env ip key (some [("X-Context7-Source", "mcp-server")]) with
  | error e => rw [hg] at h; cases h
  | ok hd =>
    rw [hg] at h
    injection h with h2
    subst h2
    exact ⟨rfl, rfl⟩

/-- C5: every transmitted fetch request uses the library id with exactly one
leading "/" stripped and a tokens parameter of `max(requested, minimum)`,
never below the configured minimum; in particular "/tiangolo/fastapi" and
"tiangolo/fastapi" produce the identical upstream request path. -/
theorem fetchDocs_request_normalization :
    (∀ (env : Env) (lib : String) (tokens : Int) (topic : String) (ip key : Option String)
      (req : FetchHttpRequest), buildFetchRequest env lib tokens topic ip key = .ok req →
      req.url = env.settings.context7_api_base_url ++ "/v1/" ++
        (if pyStartsWith lib "/" then lib.drop 1 else lib)
      ∧ req.tokens = toString (max tokens env.settings.minimum_tokens)
      ∧ env.settings.minimum_tokens ≤ max tokens env.settings.minimum_tokens)
    ∧ (∀ (env : Env) (tokens tokens' : Int) (topic topic' : String)
        (ip ip' key key' : Option String) (req req' : FetchHttpRequest),
        buildFetchRequest env "/tiangolo/fastapi" tokens topic ip key = .ok req →
        buildFetchRequest env "tiangolo/fastapi" tokens' topic' ip' key' = .ok req' →
        req.url = req'.url) := by
  constructor
  · intro env lib tokens topic ip key req h
    obtain ⟨h1, h2⟩ := buildFetchRequest_spec env lib tokens topic ip key req h
    exact ⟨h1, h2, le_max_right _ _⟩
  · intro env tokens tokens' topic topic' ip ip' key key' req req' h h'
    rw [(buildFetchRequest_spec env _ tokens topic ip key req h).1,
      (buildFetchRequest_spec env _ tokens' topic' ip' key' req' h').1]
    rfl

/-- Witness for C5: the concrete request for "/x" in `env0` (requested budget
5, configured minimum 1000), and the identical-path pair at
"/tiangolo/fastapi" vs "tiangolo/fastapi". -/
theorem fetchDocs_request_normalization_witness :
    (fetchReq0.url = env0.settings.context7_api_base_url ++ "/v1/" ++
       (if pyStartsWith "/x" "/" then "/x".drop 1 else "/x")
     ∧ fetchReq0.tokens = toString (max (5 : Int) env0.settings.minimum_tokens)
     ∧ env0.settings.minimum_tokens ≤ max (5 : Int) env0.settings.minimum_tokens)
    ∧ fetchReqA.url = fetchReqA.url :=
  ⟨fetchDocs_request_normalization.1 env0 "/x" 5 "t" none (some "k") fetchReq0 (by rfl),
   fetchDocs_request_normalization.2 env0 5 5 "r" "r" none none (some "k") (some "k")
     fetchReqA fetchReqA (by rfl) (by rfl)⟩

/-- C6: a fetch returns the absent result exactly when the upstream response
has a status other than 200 or one of the two sentinel bodies; otherwise it
returns the body verbatim. -/
theorem fetchDocs_sentinel_mapping (env : Env) (lib : String) (tokens : Int) (topic : String)
    (ip key : Option String) (req : FetchHttpRequest)
    (h : buildFetchRequest env lib tokens topic ip key = .ok req) :
    (fetch_library_docs env lib tokens topic ip key = .ok none ↔
      ((env.fetchHttp req).status ≠ 200 ∨ (env.fetchHttp req).text = "No content available" ∨
        (env.fetchHttp req).text = "No context data available"))
    ∧ ((env.fetchHttp req).status = 200 → (env.fetchHttp req).text ≠ "No content available" →
        (env.fetchHttp req).text ≠ "No context data available" →
        fetch_library_docs env lib tokens topic ip key = .ok (some (env.fetchHttp req).text)) := by
  have hr : fetch_library_docs env lib tokens topic ip key =
      .ok (if (env.fetchHttp req).status = 200 then
             (if (env.fetchHttp req).text = "No content available" ∨
                 (env.fetchHttp req).text = "No context data available"
              then none else some (env.fetchHttp req).text)
           else none) := by
    unfold fetch_library_docs
    rw [h]
  rw [hr]
  by_cases hs : (env.fetchHttp req).status = 200 <;>
    by_cases h1 : (env.fetchHttp req).text = "No content available" <;>
    by_cases h2 : (env.fetchHttp req).text = "No context data available" <;>
    simp [hs, h1, h2]

/-- Witness for C6: in `env0` the response is 200 with body "DOCS", no
sentinel, and the fetch returns it verbatim. -/
theorem fetchDocs_sentinel_mapping_witness :
    fetch_library_docs env0 "/x" 5 "t" none (some "k") =
      .ok (some (env0.fetchHttp fetchReq0).text) :=
  (fetchDocs_sentinel_mapping env0 "/x" 5 "t" none (some "k") fetchReq0 (by rfl)).2
    (by rfl) (by decide) (by decide)

/-- C7: a search call whose upstream answers a non-200 status never raises:
it returns the empty-result object tagged with the status code; on status 200
it returns the decoded body as-is. -/
theorem search_non_success_absorbed (env : Env) (query : String) (ip key : Option String)
    (hdrs : List (String × String)) (hh : generate_headers env ip key none = .ok hdrs) :
    ((env.searchHttp ⟨env.settings.context7_api_base_url ++ "/v1/search", query, hdrs⟩).status ≠ 200 →
      search_libraries env query ip key = .ok ⟨some [],
        some (toString (env.searchHttp
          ⟨env.settings.context7_api_base_url ++ "/v1/search", query, hdrs⟩).status)⟩)
    ∧ ((env.searchHttp ⟨env.settings.context7_api_base_url ++ "/v1/search", query, hdrs⟩).status = 200 →
      search_libraries env query ip key = .ok (env.searchHttp
        ⟨env.settings.context7_api_base_url ++ "/v1/search", query, hdrs⟩).body) := by
  have hr : search_libraries env query ip key =
      .ok (if (env.searchHttp
              ⟨env.settings.context7_api_base_url ++ "/v1/search", query, hdrs⟩).status = 200
           then (env.searchHttp
              ⟨env.settings.context7_api_base_url ++ "/v1/search", query, hdrs⟩).body
           else ⟨some [], some (toString (env.searchHttp
              ⟨env.settings.context7_api_base_url ++ "/v1/search", query, hdrs⟩).status)⟩) := by
    unfold search_libraries
    rw [hh]
  constructor <;> intro hs <;> simp [hr, hs]

/-- Witness for C7: `envErr` answers 503 and the search returns the tagged
empty-result object without raising. -/
theorem search_non_success_absorbed_witness :
    search_libraries envErr "q" none (some "k") = .ok ⟨some [],
      some (toString (envErr.searchHttp ⟨envErr.settings.context7_api_base_url ++ "/v1/search",
        "q", [("Authorization", "Bearer k")]⟩).status)⟩ :=
  (search_non_success_absorbed envErr "q" none (some "k") [("Authorization", "Bearer k")]
    (by rfl)).1 (by decide)

/-- C8 counterexample: at address `""` (supplied but falsy), credential "k"
and extra `{"Authorization": "old"}`, the returned map has no
encrypted-identity header although an address was supplied, and the
caller-supplied "Authorization" extra header does not pass through unchanged
— both parts of the claim fail at this input. -/
theorem buildHeaders_iff_counterexample :
    generate_headers env0 (some "") (some "k") (some [("Authorization", "old")]) =
      .ok [("Authorization", "Bearer k")]
    ∧ pyDictGet [("Authorization", "Bearer k")] "mcp-client-ip" = none
    ∧ pyDictGet [("Authorization", "Bearer k")] "Authorization" ≠ some "old" :=
  ⟨by rfl, by rfl, by decide⟩

/-- C8 amended: the map returned by `generate_headers` passes every extra
header other than the identity and authorization keys through unchanged; the
authorization entry is `Bearer {credential}` iff a truthy (non-empty)
credential was supplied and is otherwise extra's own entry; the identity
entry is the freshly encrypted address iff a truthy (non-empty) address was
supplied (overwriting extra's entry) and is otherwise extra's own entry; the
map starts from a copy of extra (absent extra means empty). -/
theorem buildHeaders_amended (env : Env) (client_ip api_key : Option String)
    (extra : Option (List (String × String))) (m : List (String × String))
    (h : generate_headers env client_ip api_key extra = .ok m) :
    (∀ k, k ≠ "mcp-client-ip" → k ≠ "Authorization" →
      pyDictGet m k = pyDictGet (extra.getD []) k)
    ∧ (pyTruthyStrOpt api_key = true →
        pyDictGet m "Authorization" = some ("Bearer " ++ api_key.getD ""))
    ∧ (pyTruthyStrOpt api_key = false →
        pyDictGet m "Authorization" = pyDictGet (extra.getD []) "Authorization")
    ∧ (pyTruthyStrOpt client_ip = true → ∃ v,
        encrypt_client_ip env (client_ip.getD "") = .ok v ∧
        pyDictGet m "mcp-client-ip" = some v)
    ∧ (pyTruthyStrOpt client_ip = false →
        pyDictGet m "mcp-client-ip" = pyDictGet (extra.getD []) "mcp-client-ip") := by
  simp only [generate_headers] at h
  by_cases hip : pyTruthyStrOpt client_ip = true
  · rw [if_pos hip] at h
    cases he : encrypt_client_ip env (client_ip.getD "") with
    | error e => rw [he] at h; injection h
    | ok v =>
      rw [he] at h
      injection h with h2
      subst h2
      by_cases hak : pyTruthyStrOpt api_key = true
      · rw [if_pos hak]
        refine ⟨?_, ?_, ?_, ?_, ?_⟩
        · intro k hk1 hk2
          rw [pyDictGet_set_other _ _ _ _ hk2, pyDictGet_set_other _ _ _ _ hk1]
        · intro _
          exact pyDictGet_set_self _ _ _
        · intro hak'
          rw [hak] at hak'
          cases hak'
        · intro _
          exact ⟨v, rfl, by
            rw [pyDictGet_set_other _ _ _ _ (by decide), pyDictGet_set_self]⟩
        · intro hip'
          rw [hip] at hip'
          cases hip'
      · rw [if_neg hak]
        refine ⟨?_, ?_, ?_, ?_, ?_⟩
        · intro k hk1 _
          rw [pyDictGet_set_other _ _ _ _ hk1]
        · intro hak'
          exact absurd hak' hak
        · intro _
          rw [pyDictGet_set_other _ _ _ _ (by decide)]
        · intro _
          exact ⟨v, rfl, pyDictGet_set_self _ _ _⟩
        · intro hip'
          rw [hip] at hip'
          cases hip'
  · rw [if_neg hip] at h
    injection h with h2
    subst h2
    have hip' : pyTruthyStrOpt client_ip = false := by
      cases hv : pyTruthyStrOpt client_ip
      · rfl
      · exact absurd hv hip
    by_cases hak : pyTruthyStrOpt api_key = true
    · rw [if_pos hak]
      refine ⟨?_, ?_, ?_, ?_, ?_⟩
      · intro k _ hk2
        rw [pyDictGet_set_other _ _ _ _ hk2]
      · intro _
        exact pyDictGet_set_self _ _ _
      · intro hak'
        rw [hak] at hak'
        cases hak'
      · intro hip2
        rw [hip'] at hip2
        cases hip2
      · intro _
        rw [pyDictGet_set_other _ _ _ _ (by decide)]
    · rw [if_neg hak]
      refine ⟨fun k _ _ => rfl, ?_, fun _ => rfl, ?_, fun _ => rfl⟩
      · intro hak'
        exact absurd hak' hak
      · intro hip2
        rw [hip'] at hip2
        cases hip2

/-- Witness for C8 amended: address absent, credential "k", one unrelated
extra header; the extra header passes through and the bearer header is
added. -/
theorem buildHeaders_amended_witness :
    pyDictGet [("X-Custom", "1"), ("Authorization", "Bearer k")] "X-Custom" =
      pyDictGet ((some [("X-Custom", "1")]).getD []) "X-Custom"
    ∧ pyDictGet [("X-Custom", "1"), ("Authorization", "Bearer k")] "Authorization" =
      some ("Bearer " ++ (some "k").getD "") :=
  ⟨(buildHeaders_amended env0 none (some "k") (some [("X-Custom", "1")])
      [("X-Custom", "1"), ("Authorization", "Bearer k")] (by rfl)).1 "X-Custom"
      (by decide) (by decide),
   (buildHeaders_amended env0 none (some "k") (some [("X-Custom", "1")])
      [("X-Custom", "1"), ("Authorization", "Bearer k")] (by rfl)).2.1 (by rfl)⟩

/-- C9: whenever the configured key is not a hex string decoding to a valid
fixed-length AES key (16/24/32 bytes), `encrypt_client_ip` fails with the
key-handling ValueError (the spec's EncryptionConfigError), and so does
`generate_headers` for any truthy address — the failure surfaces at
header-build time. -/
theorem encryptIdentity_bad_key (env : Env) (ip : String)
    (hkey : validAesKeyHex env.settings.client_ip_encryption_key = false) (hip : ip ≠ "") :
    isEncryptionConfigError (encrypt_client_ip env ip) = true
    ∧ (∀ (api_key : Option String) (extra : Option (List (String × String))),
        isEncryptionConfigError (generate_headers env (some ip) api_key extra) = true) := by
  have henc : isEncryptionConfigError (encrypt_client_ip env ip) = true := by
    unfold validAesKeyHex at hkey
    cases hb : bytesFromHex env.settings.client_ip_encryption_key with
    | none =>
      unfold encrypt_client_ip
      rw [hb]
      rfl
    | some key =>
      rw [hb] at hkey
      simp only [Bool.or_eq_false_iff, beq_eq_false_iff_ne, ne_eq] at hkey
      have hcond : ¬(key.length = 16 ∨ key.length = 24 ∨ key.length = 32) := by
        rintro (h | h | h) <;> simp [h] at hkey
      unfold encrypt_client_ip
      simp only [hb]
      rw [if_neg hcond]
      rfl
  refine ⟨henc, fun api_key extra => ?_⟩
  cases hv : encrypt_client_ip env ip with
  | ok v => rw [hv] at henc; cases henc
  | error e =>
    cases e with
    | encryptionConfig msg =>
      simp only [generate_headers]
      rw [if_pos (show pyTruthyStrOpt (some ip) = true by simp [pyTruthyStrOpt, hip])]
      rw [show (some ip).getD "" = ip from rfl, hv]
      rfl
    | libraryNotFound s msg => rw [hv] at henc; cases henc
    | docNotFound s msg => rw [hv] at henc; cases henc
    | httpException s d => rw [hv] at henc; cases henc
    | attributeError o a => rw [hv] at henc; cases henc

/-- Witness for C9: the non-hex key "zz" in `envZZ` makes both the
encryption and the header build fail with the configuration error. -/
theorem encryptIdentity_bad_key_witness :
    isEncryptionConfigError (encrypt_client_ip envZZ "1.2.3.4") = true
    ∧ isEncryptionConfigError (generate_headers envZZ (some "1.2.3.4") (some "k") none) = true :=
  ⟨(encryptIdentity_bad_key envZZ "1.2.3.4" (by rfl) (by decide)).1,
   (encryptIdentity_bad_key envZZ "1.2.3.4" (by rfl) (by decide)).2 (some "k") none⟩

/-- C10: an upstream 200 response with an empty body is not mapped to absent
by `fetch_library_docs` (the empty string is no sentinel), yet the falsiness
check `if not docs` of the single-item handler raises
DocumentationNotFoundException for it (conjunct 1). On the batch side the
intended per-index placeholder substitution is what the handler body performs
(conjunct 3, in the all-empty-body environment), but the actual handler
fails with AttributeError on `request.library_ids` before any fetch
(conjunct 2). -/
theorem empty_body_treated_not_found (env : Env) (request : GetLibraryDocsRequest)
    (req : FetchHttpRequest)
    (hb : buildFetchRequest env request.library_id request.tokens request.topic none
      (some env.settings.api_key) = .ok req)
    (hs : (env.fetchHttp req).status = 200) (ht : (env.fetchHttp req).text = "") :
    get_library_docs env request = .error (.docNotFound 404 "Documentation not found.")
    ∧ (∀ (order : List Nat) (breq : GetMultipleLibraryDocsRequest),
        get_multiple_library_docs env order breq =
          .error (.attributeError "GetMultipleLibraryDocsRequest" "library_ids"))
    ∧ get_multiple_library_docs_given envEmpty [0] ["/lib"] [5] ["top"] =
        .ok ["Documentation not found for /lib with topic \x27top\x27."] := by
  refine ⟨?_, fun order breq => rfl, by rfl⟩
  have hf : fetch_library_docs env request.library_id request.tokens request.topic none
      (some env.settings.api_key) = .ok (some "") := by
    unfold fetch_library_docs
    simp only [hb]
    rw [if_pos hs, ht, if_neg (by decide)]
  unfold get_library_docs
  rw [hf]
  rfl

/-- Witness for C10: in the all-empty-body environment the single-item call
raises DocumentationNotFoundException and the batch call raises
AttributeError. -/
theorem empty_body_treated_not_found_witness :
    get_library_docs envEmpty ⟨"/x", 5, "t"⟩ =
      .error (.docNotFound 404 "Documentation not found.")
    ∧ get_multiple_library_docs envEmpty [0] ⟨["/x"], [5], ["t"]⟩ =
      .error (.attributeError "GetMultipleLibraryDocsRequest" "library_ids") :=
  ⟨(empty_body_treated_not_found envEmpty ⟨"/x", 5, "t"⟩ fetchReq0
      (by rfl) (by rfl) (by rfl)).1,
   (empty_body_treated_not_found envEmpty ⟨"/x", 5, "t"⟩ fetchReq0
      (by rfl) (by rfl) (by rfl)).2.1 [0] ⟨["/x"], [5], ["t"]⟩⟩

end Context7
